import Mathlib

/-!
Verification of the QTAI real-time trading engine
(`src/step_index_realtime_trader.py`) against its natural-language
specification.  The Python source is shallowly embedded below: prices and
balances are modelled as rationals (the source works with IEEE doubles on
values of small magnitude, where the algebra coincides), datetimes as
integers (minutes since an epoch; `date()` is minute-count divided by
1440), and the external MetaTrader 5 collaborator as an explicit oracle
value consumed by the functions that query it.
-/

namespace QTAI

/-! ## Module-level constants (lines 15-44 of the source) -/

def SPREAD : ℚ := 1
def MIN_VOLUME : ℚ := 1/10
def MAX_VOLUME : ℚ := 50
def VOL_STEP : ℚ := 1/100
def POINT_VALUE : ℚ := 1
def INITIAL_BALANCE : ℚ := 90
def LOOKBACK_WINDOW : ℕ := 5
def MIN_DECLINE_PCT : ℚ := 1/100
def MIN_RECOVERY_PCT : ℚ := 1/100
def RECOVERY_PCT_THRESHOLD : ℚ := 248/10000
def VELOCITY_THRESHOLD : ℚ := 21/10
def RANGE_THRESHOLD : ℚ := 21/10
def BUFFER_SIZE : ℕ := 20

/-- MetaTrader 5 success return code (`mt5.TRADE_RETCODE_DONE`). -/
def TRADE_RETCODE_DONE : ℕ := 10009

/-! ## Data model -/

/-- One OHLC bar (`{'time', 'open', 'high', 'low', 'close'}` dictionaries
built in `get_initial_data` / `get_new_bar`).  `open` is a Lean keyword,
hence the field name `open_`. -/
structure Bar where
  time : ℤ
  open_ : ℚ
  high : ℚ
  low : ℚ
  close : ℚ
deriving DecidableEq, Repr

/-- The dictionary returned by `detect_v_pattern` (lines 249-260); the
constant `'type': 'V'` entry is omitted. -/
structure Pattern where
  bottom_time : ℤ
  entry_price : ℚ
  exit_price : ℚ
  points_gained : ℚ
  profit_per_lot : ℚ
  decline_pct : ℚ
  recovery_pct : ℚ
  bottom_to_high_velocity : ℚ
  confirm_range : ℚ
deriving DecidableEq, Repr

/-- A trade-ledger record (the dictionaries appended to `trade_history`
at lines 901-910, 980-989 and 1031-1040). -/
structure Trade where
  time : ℤ
  entry_price : ℚ
  exit_price : ℚ
  volume : ℚ
  points_gained : ℚ
  profit : ℚ
  balance_before : ℚ
  balance_after : ℚ
deriving DecidableEq, Repr

/-- Python `datetime.date()` on our minutes-since-epoch model: the
calendar day the minute falls in. -/
def dateOf (t : ℤ) : ℤ := t / 1440

/-- Python 3 built-in `round` on a rational: round half to even. -/
def pyRound (q : ℚ) : ℤ :=
  let n := ⌊q⌋
  let r := q - n
  if r < 1/2 then n
  else if 1/2 < r then n + 1
  else if n % 2 = 0 then n else n + 1

/-! ## Pattern detection (`detect_v_pattern`, lines 203-266) -/

/-- Python negative indexing: `l[-k]` for a list known to be long enough
(the default value is never reached under the guards of the source). -/
def nthLast (l : List Bar) (k : ℕ) : Bar :=
  l.getD (l.length - k) ⟨0, 0, 0, 0, 0⟩

/-- Python `max(p['high'] for p in l)` over a nonempty list. -/
def maxHigh : List Bar → ℚ
  | [] => 0
  | b :: rest => rest.foldl (fun acc x => max acc x.high) b.high

/-- Embedding of `detect_v_pattern` (lines 203-266): guard on buffer
length, local-minimum test on the second-to-last bar, `pre_high` over
`price_buffer[:-2]`, decline/recovery thresholds, entry/exit with
spread, and the three optimized secondary filters. -/
def detect_v_pattern (price_buffer : List Bar) : Option Pattern :=
  if price_buffer.length < LOOKBACK_WINDOW + 1 then none
  else
    let b1 := nthLast price_buffer 1
    let b2 := nthLast price_buffer 2
    let b3 := nthLast price_buffer 3
    if b2.low < b3.low ∧ b2.low < b1.low then
      let pre_high := maxHigh (price_buffer.take (price_buffer.length - 2))
      let decline_pct := (pre_high - b2.low) / pre_high * 100
      let recovery_pct := (b1.high - b2.low) / b2.low * 100
      if MIN_DECLINE_PCT ≤ decline_pct ∧ MIN_RECOVERY_PCT ≤ recovery_pct then
        let entry_price := b2.low + SPREAD/2
        let exit_price := b1.high - SPREAD/2
        let points_gained := exit_price - entry_price
        let bottom_to_high_velocity := b1.high - b2.low
        let confirm_range := b1.high - b1.low
        if RECOVERY_PCT_THRESHOLD ≤ recovery_pct ∧
            VELOCITY_THRESHOLD ≤ bottom_to_high_velocity ∧
            confirm_range ≤ RANGE_THRESHOLD then
          some ⟨b2.time, entry_price, exit_price, points_gained,
                points_gained * (1/POINT_VALUE * 10), decline_pct,
                recovery_pct, bottom_to_high_velocity, confirm_range⟩
        else none
      else none
    else none

/-! ## Position sizing (`calculate_position_size`, lines 268-327).
Each local of the Python function becomes one definition so that the
theorems can speak about the intermediate Kelly quantities. -/

/-- Lines 284-285: the trades of the current session (today). -/
def current_session_trades_of (today : ℤ) (trade_history : List Trade) :
    List Trade :=
  trade_history.filter (fun t => dateOf t.time == today)

/-- Lines 288-298: realized win fraction once 5 session trades exist,
conservative 0.8 before that. -/
def win_rate_of (today : ℤ) (trade_history : List Trade) : ℚ :=
  let cst := current_session_trades_of today trade_history
  let total_trades := cst.length
  let winning_trades := (cst.filter (fun t => (0:ℚ) < t.points_gained)).length
  if 5 ≤ total_trades then (winning_trades : ℚ) / (total_trades : ℚ)
  else 8/10

/-- Lines 300-307: average winning points, or the current pattern's
`points_gained` when the session has no winner yet. -/
def avg_win_of (today : ℤ) (pattern : Pattern) (trade_history : List Trade) : ℚ :=
  let cst := current_session_trades_of today trade_history
  let winners := cst.filter (fun t => (0:ℚ) < t.points_gained)
  if 0 < winners.length then
    (winners.map (·.points_gained)).sum / (winners.length : ℚ)
  else pattern.points_gained

/-- Lines 309-313: `kelly_pct`, with the win/loss quotient taken against
the fixed theoretical loss of 10 points; 0 when the quotient is not
positive. -/
def kelly_pct_of (today : ℤ) (pattern : Pattern) (trade_history : List Trade) : ℚ :=
  let theoretical_loss : ℚ := 10
  let win_loss := avg_win_of today pattern trade_history / theoretical_loss
  if 0 < win_loss then
    (win_rate_of today trade_history * (win_loss + 1) - 1) / win_loss
  else 0

/-- Lines 315-321: quarter Kelly capped at 50 percent, translated into a
raw (unclamped) volume against the dollar risk of the theoretical loss. -/
def kelly_volume_of (today : ℤ) (current_balance : ℚ) (pattern : Pattern)
    (trade_history : List Trade) : ℚ :=
  let theoretical_loss : ℚ := 10
  let fractional_kelly := min (kelly_pct_of today pattern trade_history * (25/100)) (5/10)
  let kelly_amount := current_balance * fractional_kelly
  let risk_amount := theoretical_loss * (1/POINT_VALUE * 10)
  if 0 < risk_amount then kelly_amount / risk_amount else MIN_VOLUME

/-- Lines 323-327: clamp into `[MIN_VOLUME, MAX_VOLUME]` and round to the
volume step.  This is the return value of `calculate_position_size`. -/
def calculate_position_size (today : ℤ) (current_balance : ℚ)
    (pattern : Pattern) (trade_history : List Trade) : ℚ :=
  let optimal_volume :=
    min (max MIN_VOLUME (kelly_volume_of today current_balance pattern trade_history))
      MAX_VOLUME
  (pyRound (optimal_volume / VOL_STEP) : ℚ) * VOL_STEP

/-! ## Execution guard (`check_open_positions` lines 606-628,
`execute_trade` lines 630-729).  The MT5 terminal is an oracle: one
`BrokerResp` records what `mt5.positions_get` and `mt5.order_send`
return during a single `execute_trade` call. -/

/-- An entry of the list returned by `mt5.positions_get`. -/
structure Position where
  ticket : ℕ
  ptype : ℕ
  volume : ℚ
  profit : ℚ
deriving DecidableEq, Repr

/-- The result object of `mt5.order_send`. -/
structure OrderResult where
  retcode : ℕ
  order : ℕ
deriving DecidableEq, Repr

/-- The broker's answers observed by one `execute_trade` call: `none`
models the MT5 API returning `None`. -/
structure BrokerResp where
  positions : Option (List Position)
  orderResult : Option OrderResult
deriving DecidableEq, Repr

/-- `check_open_positions` (lines 606-628): a failed query (`None`)
yields `False`; otherwise report whether the position list is nonempty. -/
def check_open_positions (positions : Option (List Position)) : Bool :=
  match positions with
  | none => false
  | some l => 0 < l.length

/-- Outcome of `execute_trade`: its boolean return value, plus whether
control reached the `mt5.order_send` call. -/
structure ExecResult where
  success : Bool
  orderSent : Bool
deriving DecidableEq, Repr

/-- `execute_trade` (lines 630-729): guard on open positions, then the
order submission; `False` when the guard trips, when `order_send`
returns `None`, or when the return code is not `TRADE_RETCODE_DONE`. -/
def execute_trade (resp : BrokerResp) (pattern : Pattern) (volume : ℚ) :
    ExecResult :=
  if check_open_positions resp.positions then ⟨false, false⟩
  else
    match resp.orderResult with
    | none => ⟨false, true⟩
    | some result =>
      if result.retcode ≠ TRADE_RETCODE_DONE then ⟨false, true⟩
      else ⟨true, true⟩

/-! ## The per-bar ingest paths of `run_realtime_trader` -/

/-- The mutable locals of `run_realtime_trader` that the ingest paths
touch, plus the oracle of pending broker responses and a ghost trace of
the per-bar detection outcomes. -/
structure TraderState where
  data_buffer : List Bar
  current_balance : ℚ
  trade_history : List Trade
  last_bar_time : ℤ
  broker : List BrokerResp
  detections : List Bool
deriving DecidableEq, Repr

/-- Consume the next broker response; an exhausted oracle behaves like a
fully failing terminal (positions query and order both return `None`). -/
def popBroker : List BrokerResp → BrokerResp × List BrokerResp
  | [] => (⟨none, none⟩, [])
  | r :: rs => (r, rs)

/-- The trade record appended to `trade_history` after a successful
execution (`balance_before` is written as the already-updated balance
minus the profit, exactly as in the source). -/
def mkTrade (pattern : Pattern) (volume profit balance_after : ℚ) : Trade :=
  { time := pattern.bottom_time
    entry_price := pattern.entry_price
    exit_price := pattern.exit_price
    volume := volume
    points_gained := pattern.points_gained
    profit := profit
    balance_before := balance_after - profit
    balance_after := balance_after }

/-- The live ingest path for one new bar (lines 1000-1041): buffer
append with FIFO eviction, `last_bar_time` update, pattern detection,
sizing, execution, and — only on success — balance update and ledger
append.  The second component records whether `execute_trade` returned
`True` on this tick. -/
def liveProcessBarE (today : ℤ) (st : TraderState) (bar : Bar) :
    TraderState × Bool :=
  let buf0 := st.data_buffer ++ [bar]
  let buf := if BUFFER_SIZE < buf0.length then buf0.drop 1 else buf0
  match detect_v_pattern buf with
  | none =>
    ({ st with data_buffer := buf, last_bar_time := bar.time,
               detections := st.detections ++ [false] }, false)
  | some pattern =>
    let volume := calculate_position_size today st.current_balance pattern
      st.trade_history
    let pr := popBroker st.broker
    if (execute_trade pr.1 pattern volume).success then
      let profit := pattern.points_gained * volume * POINT_VALUE
      let balance := st.current_balance + profit
      ({ data_buffer := buf
         current_balance := balance
         trade_history := st.trade_history ++ [mkTrade pattern volume profit balance]
         last_bar_time := bar.time
         broker := pr.2
         detections := st.detections ++ [true] }, true)
    else
      ({ st with data_buffer := buf, last_bar_time := bar.time,
                 broker := pr.2, detections := st.detections ++ [true] }, false)

/-- The live ingest path, state part only. -/
def liveProcessBar (today : ℤ) (st : TraderState) (bar : Bar) : TraderState :=
  (liveProcessBarE today st bar).1

/-- The gap-recovery loop body for one recovered bar (lines 878-914):
the same append, detect, size, execute, record sequence, with
`last_bar_time` assigned at the end of the loop body. -/
def recoveryProcessBar (today : ℤ) (st : TraderState) (bar : Bar) :
    TraderState :=
  let buf0 := st.data_buffer ++ [bar]
  let buf := if BUFFER_SIZE < buf0.length then buf0.drop 1 else buf0
  let st1 :=
    match detect_v_pattern buf with
    | none => { st with data_buffer := buf, detections := st.detections ++ [false] }
    | some pattern =>
      let volume := calculate_position_size today st.current_balance pattern
        st.trade_history
      let pr := popBroker st.broker
      if (execute_trade pr.1 pattern volume).success then
        let profit := pattern.points_gained * volume * POINT_VALUE
        let balance := st.current_balance + profit
        { data_buffer := buf
          current_balance := balance
          trade_history := st.trade_history ++ [mkTrade pattern volume profit balance]
          last_bar_time := st.last_bar_time
          broker := pr.2
          detections := st.detections ++ [true] }
      else
        { st with data_buffer := buf, broker := pr.2,
                  detections := st.detections ++ [true] }
  { st1 with last_bar_time := bar.time }

/-- The bare buffer update of the ingest paths (lines 1000-1003 and
878-882): append, then evict the oldest bar when the capacity is
exceeded. -/
def appendBar (data_buffer : List Bar) (bar : Bar) : List Bar :=
  let b := data_buffer ++ [bar]
  if BUFFER_SIZE < b.length then b.drop 1 else b

/-! ## State snapshot store (`save_trading_state` lines 541-575,
`load_trading_state` lines 577-604, restore-on-start lines 759-777).
Python's `datetime.isoformat` / `datetime.fromisoformat` are an exact
inverse pair of external library functions; they are modelled as a
wrapper type around the datetime value. -/

/-- The ISO-8601 string produced by `datetime.isoformat`, modelled as an
opaque wrapper of the encoded instant. -/
structure IsoStr where
  val : ℤ
deriving DecidableEq, Repr

/-- `datetime.isoformat` (external library, injective encoding). -/
def isoformat (t : ℤ) : IsoStr := ⟨t⟩

/-- `datetime.fromisoformat` (external library, exact inverse of
`isoformat`). -/
def fromisoformat (s : IsoStr) : ℤ := s.val

/-- A buffer entry as written to `trading_state.json` (lines 552-556:
`bar.copy()` with the `time` field replaced by its ISO string). -/
structure SavedBar where
  time : IsoStr
  open_ : ℚ
  high : ℚ
  low : ℚ
  close : ℚ
deriving DecidableEq, Repr

/-- A ledger entry as written to `trading_state.json` (lines 558-562). -/
structure SavedTrade where
  time : IsoStr
  entry_price : ℚ
  exit_price : ℚ
  volume : ℚ
  points_gained : ℚ
  profit : ℚ
  balance_before : ℚ
  balance_after : ℚ
deriving DecidableEq, Repr

/-- The `state` dictionary serialized at lines 564-573. -/
structure TradingStateFile where
  timestamp : IsoStr
  data_buffer : List SavedBar
  trade_history : List SavedTrade
  current_balance : ℚ
  last_bar_time : IsoStr
deriving DecidableEq, Repr

/-- Lines 553-556: serialize one bar. -/
def serializeBar (bar : Bar) : SavedBar :=
  ⟨isoformat bar.time, bar.open_, bar.high, bar.low, bar.close⟩

/-- Lines 589-590 applied to one bar: parse the time string back. -/
def deserializeBar (bar : SavedBar) : Bar :=
  ⟨fromisoformat bar.time, bar.open_, bar.high, bar.low, bar.close⟩

/-- Lines 559-562: serialize one trade. -/
def serializeTrade (trade : Trade) : SavedTrade :=
  ⟨isoformat trade.time, trade.entry_price, trade.exit_price, trade.volume,
   trade.points_gained, trade.profit, trade.balance_before, trade.balance_after⟩

/-- Lines 592-593 applied to one trade. -/
def deserializeTrade (trade : SavedTrade) : Trade :=
  ⟨fromisoformat trade.time, trade.entry_price, trade.exit_price, trade.volume,
   trade.points_gained, trade.profit, trade.balance_before, trade.balance_after⟩

/-- `save_trading_state` (lines 541-575): the file contents written out,
with `now` the wall-clock timestamp recorded in the snapshot. -/
def save_trading_state (now : ℤ) (data_buffer : List Bar)
    (trade_history : List Trade) (current_balance : ℚ) (last_bar_time : ℤ) :
    TradingStateFile :=
  { timestamp := isoformat now
    data_buffer := data_buffer.map serializeBar
    trade_history := trade_history.map serializeTrade
    current_balance := current_balance
    last_bar_time := isoformat last_bar_time }

/-- The in-memory state `load_trading_state` hands back after parsing
the timestamps. -/
structure LoadedState where
  timestamp : IsoStr
  data_buffer : List Bar
  trade_history : List Trade
  current_balance : ℚ
  last_bar_time : ℤ
deriving DecidableEq, Repr

/-- `load_trading_state` (lines 577-604): `none` models the
`FileNotFoundError` branch ("no saved state"), otherwise every `time`
string is parsed back to a datetime. -/
def load_trading_state (file : Option TradingStateFile) : Option LoadedState :=
  match file with
  | none => none
  | some st =>
    some { timestamp := st.timestamp
           data_buffer := st.data_buffer.map deserializeBar
           trade_history := st.trade_history.map deserializeTrade
           current_balance := st.current_balance
           last_bar_time := fromisoformat st.last_bar_time }

/-- The session variables seeded by the restart branch of
`run_realtime_trader`. -/
structure RestartState where
  data_buffer : List Bar
  last_bar_time : ℤ
  current_balance : ℚ
  trade_history : List Trade
deriving DecidableEq, Repr

/-- The saved-state branch of `run_realtime_trader` startup (lines
759-777): buffer and `last_bar_time` are taken from the snapshot, the
balance is re-read from the account (falling back to `INITIAL_BALANCE`),
and the trade history is reset to empty. -/
def restore_on_start (saved : LoadedState) (account_balance : Option ℚ) :
    RestartState :=
  { data_buffer := saved.data_buffer
    last_bar_time := saved.last_bar_time
    current_balance := account_balance.getD INITIAL_BALANCE
    trade_history := [] }

/-! ## Theorems -/

/-- C5: whenever the open-positions query reports one or more open
positions for the instrument, `execute_trade` submits no order
(`order_send` is never reached) and returns `False`, regardless of the
pattern or volume passed in. -/
theorem single_inflight_position (l : List Position) (ro : Option OrderResult)
    (p : Pattern) (v : ℚ) (h : 1 ≤ l.length) :
    execute_trade ⟨some l, ro⟩ p v = ⟨false, false⟩ := by
  have hl : check_open_positions (some l) = true := by
    simp only [check_open_positions, decide_eq_true_eq]
    omega
  unfold execute_trade
  rw [hl]
  simp

/-- Witness for C5 at a concrete one-position broker answer. -/
theorem single_inflight_position_witness :
    execute_trade ⟨some [⟨7, 0, 1, 0⟩], some ⟨TRADE_RETCODE_DONE, 1⟩⟩
      ⟨0, 0, 0, 0, 0, 0, 0, 0, 0⟩ 1 = ⟨false, false⟩ :=
  single_inflight_position [⟨7, 0, 1, 0⟩] (some ⟨TRADE_RETCODE_DONE, 1⟩)
    ⟨0, 0, 0, 0, 0, 0, 0, 0, 0⟩ 1 (by simp)

/-- C6: if the open-positions query itself fails (returns `None` rather
than a position list), `check_open_positions` returns `False` and
`execute_trade` proceeds to submit the order exactly as if no position
were open. -/
theorem execution_guard_fails_open :
    check_open_positions none = false ∧
    (∀ (ro : Option OrderResult) (p : Pattern) (v : ℚ),
      execute_trade ⟨none, ro⟩ p v = execute_trade ⟨some [], ro⟩ p v) ∧
    (∀ (ro : Option OrderResult) (p : Pattern) (v : ℚ),
      (execute_trade ⟨none, ro⟩ p v).orderSent = true) := by
  refine ⟨rfl, fun ro p v => rfl, fun ro p v => ?_⟩
  unfold execute_trade
  cases ro with
  | none => rfl
  | some r =>
    show (if r.retcode ≠ TRADE_RETCODE_DONE then
        (⟨false, true⟩ : ExecResult) else ⟨true, true⟩).orderSent = true
    split <;> rfl

/-- C7: on every tick, either `execute_trade` did not return `True` and
the balance and trade ledger are left exactly as they were, or it
returned `True` and exactly one trade record was appended with the
balance advanced by that trade's profit. -/
theorem execution_atomicity (today : ℤ) (st : TraderState) (bar : Bar) :
    ((liveProcessBarE today st bar).2 = false ∧
      (liveProcessBarE today st bar).1.current_balance = st.current_balance ∧
      (liveProcessBarE today st bar).1.trade_history = st.trade_history) ∨
    ((liveProcessBarE today st bar).2 = true ∧
      ∃ t : Trade,
        (liveProcessBarE today st bar).1.trade_history = st.trade_history ++ [t] ∧
        (liveProcessBarE today st bar).1.current_balance = st.current_balance + t.profit) := by
  unfold liveProcessBarE
  dsimp only
  split
  · exact Or.inl ⟨rfl, rfl, rfl⟩
  · split
    · exact Or.inr ⟨rfl, _, rfl, rfl⟩
    · exact Or.inl ⟨rfl, rfl, rfl⟩

/-- Auxiliary for C1: the live ingest path and the gap-recovery loop
body compute the same successor state for every single bar. -/
theorem liveStep_eq_recoveryStep (today : ℤ) (st : TraderState) (bar : Bar) :
    liveProcessBar today st bar = recoveryProcessBar today st bar := by
  unfold liveProcessBar liveProcessBarE recoveryProcessBar
  dsimp only
  cases hdet : detect_v_pattern
      (if BUFFER_SIZE < (st.data_buffer ++ [bar]).length
        then (st.data_buffer ++ [bar]).drop 1 else st.data_buffer ++ [bar]) with
  | none => simp only [hdet]
  | some pattern =>
    simp only [hdet]
    split <;> rfl

/-- C1: replay equivalence — for a fixed bar sequence, fixed parameters
and a fixed broker oracle, ingesting the bars one per tick through the
live path yields exactly the same final state (buffer contents,
detection trace, balance and trade ledger) as feeding the same bars in
order through the gap-recovery loop. -/
theorem replay_equivalence (today : ℤ) (bars : List Bar) (st : TraderState) :
    List.foldl (liveProcessBar today) st bars =
    List.foldl (recoveryProcessBar today) st bars := by
  induction bars generalizing st with
  | nil => rfl
  | cons b bs ih =>
    rw [List.foldl_cons, List.foldl_cons, liveStep_eq_recoveryStep]
    exact ih _

/-- Round-trip of the per-bar snapshot serialization. -/
theorem deserializeBar_serializeBar (b : Bar) :
    deserializeBar (serializeBar b) = b := rfl

/-- Round-trip of the per-trade snapshot serialization. -/
theorem deserializeTrade_serializeTrade (t : Trade) :
    deserializeTrade (serializeTrade t) = t := rfl

/-- C10: saving with `save_trading_state` and loading with
`load_trading_state` restores the data buffer, the trade history, the
balance and the last-bar time exactly as saved; the restart branch of
`run_realtime_trader` then keeps that buffer and last-bar time while
resetting the trade ledger to empty. -/
theorem snapshot_roundtrip (now : ℤ) (buf : List Bar) (trades : List Trade)
    (bal : ℚ) (lbt : ℤ) (ab : Option ℚ) :
    load_trading_state (some (save_trading_state now buf trades bal lbt)) =
      some ⟨isoformat now, buf, trades, bal, lbt⟩ ∧
    restore_on_start ⟨isoformat now, buf, trades, bal, lbt⟩ ab =
      ⟨buf, lbt, ab.getD INITIAL_BALANCE, []⟩ := by
  constructor
  · simp [load_trading_state, save_trading_state, List.map_map,
      Function.comp_def, deserializeBar_serializeBar,
      deserializeTrade_serializeTrade, fromisoformat, isoformat]
  · rfl

/-- `pyRound` returns the floor or, only when the fractional part is at
least one half (so the argument strictly exceeds its floor), the floor
plus one. -/
theorem pyRound_eq_floor_or (q : ℚ) :
    pyRound q = ⌊q⌋ ∨ (pyRound q = ⌊q⌋ + 1 ∧ (⌊q⌋ : ℚ) < q) := by
  unfold pyRound
  dsimp only
  split_ifs with h1 h2 h3
  · exact Or.inl rfl
  · exact Or.inr ⟨rfl, by linarith⟩
  · exact Or.inl rfl
  · push_neg at h1
    exact Or.inr ⟨rfl, by linarith⟩

/-- `pyRound` maps a rational lying between two integers to an integer
between them. -/
theorem pyRound_bounds (a b : ℤ) (q : ℚ) (ha : (a : ℚ) ≤ q)
    (hb : q ≤ (b : ℚ)) : a ≤ pyRound q ∧ pyRound q ≤ b := by
  have hfa : a ≤ ⌊q⌋ := Int.le_floor.mpr ha
  rcases pyRound_eq_floor_or q with h | ⟨h, hlt⟩
  · rw [h]
    refine ⟨hfa, ?_⟩
    have hfb : ⌊q⌋ ≤ ⌊(b : ℚ)⌋ := Int.floor_le_floor hb
    simpa using hfb
  · rw [h]
    have hb' : ⌊q⌋ < b := by exact_mod_cast hlt.trans_le hb
    exact ⟨by omega, by omega⟩

/-- The clamp-and-quantize tail of `calculate_position_size` (lines
324-325) keeps any raw Kelly volume inside the volume limits and on the
volume grid. -/
theorem clamp_round (kv : ℚ) :
    MIN_VOLUME ≤ (pyRound (min (max MIN_VOLUME kv) MAX_VOLUME / VOL_STEP) : ℚ) * VOL_STEP ∧
    (pyRound (min (max MIN_VOLUME kv) MAX_VOLUME / VOL_STEP) : ℚ) * VOL_STEP ≤ MAX_VOLUME ∧
    ∃ k : ℤ, (pyRound (min (max MIN_VOLUME kv) MAX_VOLUME / VOL_STEP) : ℚ) * VOL_STEP
      = (k : ℚ) * VOL_STEP := by
  set c := min (max MIN_VOLUME kv) MAX_VOLUME with hc
  have h1 : MIN_VOLUME ≤ c :=
    le_min (le_max_left _ _) (by norm_num [MIN_VOLUME, MAX_VOLUME])
  have h2 : c ≤ MAX_VOLUME := min_le_right _ _
  rw [MIN_VOLUME] at h1
  rw [MAX_VOLUME] at h2
  have hdiv : c / VOL_STEP = c * 100 := by
    rw [VOL_STEP, div_eq_mul_inv]
    norm_num
  have hq1 : ((10 : ℤ) : ℚ) ≤ c / VOL_STEP := by
    rw [hdiv]; push_cast; linarith
  have hq2 : c / VOL_STEP ≤ ((5000 : ℤ) : ℚ) := by
    rw [hdiv]; push_cast; linarith
  obtain ⟨hA, hB⟩ := pyRound_bounds 10 5000 (c / VOL_STEP) hq1 hq2
  have hA' : (10 : ℚ) ≤ (pyRound (c / VOL_STEP) : ℚ) := by exact_mod_cast hA
  have hB' : ((pyRound (c / VOL_STEP)) : ℚ) ≤ 5000 := by exact_mod_cast hB
  refine ⟨?_, ?_, ⟨pyRound (c / VOL_STEP), rfl⟩⟩
  · rw [VOL_STEP] at hA'
    rw [MIN_VOLUME, VOL_STEP]; linarith
  · rw [VOL_STEP] at hB'
    rw [MAX_VOLUME, VOL_STEP]; linarith

/-- C2: for every balance ≥ 0 (in fact for every balance), every
pattern and every trade history, the volume returned by
`calculate_position_size` lies in `[MIN_VOLUME, MAX_VOLUME]` and is an
integer multiple of `VOL_STEP`. -/
theorem kelly_bounds (today : ℤ) (balance : ℚ) (pattern : Pattern)
    (trade_history : List Trade) (h : 0 ≤ balance) :
    MIN_VOLUME ≤ calculate_position_size today balance pattern trade_history ∧
    calculate_position_size today balance pattern trade_history ≤ MAX_VOLUME ∧
    ∃ k : ℤ, calculate_position_size today balance pattern trade_history
      = (k : ℚ) * VOL_STEP := by
  have hcr := clamp_round (kelly_volume_of today balance pattern trade_history)
  simpa [calculate_position_size] using hcr

/-- Witness for C2 at a concrete balance, pattern and empty history. -/
theorem kelly_bounds_witness :
    (0 : ℚ) ≤ 90 ∧
    (MIN_VOLUME ≤ calculate_position_size 0 90 ⟨0, 0, 0, 2, 20, 0, 3, 3, 1⟩ [] ∧
     calculate_position_size 0 90 ⟨0, 0, 0, 2, 20, 0, 3, 3, 1⟩ [] ≤ MAX_VOLUME ∧
     ∃ k : ℤ, calculate_position_size 0 90 ⟨0, 0, 0, 2, 20, 0, 3, 3, 1⟩ []
       = (k : ℚ) * VOL_STEP) :=
  ⟨by norm_num, kelly_bounds 0 90 ⟨0, 0, 0, 2, 20, 0, 3, 3, 1⟩ [] (by norm_num)⟩

/-- C4 (amended): for every balance ≤ 0, `calculate_position_size`
returns exactly `MIN_VOLUME` provided the computed Kelly percentage is
nonnegative (or the balance is exactly zero); a negative balance
multiplied by a negative fractional Kelly escapes the floor. -/
theorem nonpositive_balance_floor (today : ℤ) (balance : ℚ)
    (pattern : Pattern) (trade_history : List Trade) (hb : balance ≤ 0)
    (hk : 0 ≤ kelly_pct_of today pattern trade_history ∨ balance = 0) :
    calculate_position_size today balance pattern trade_history = MIN_VOLUME := by
  have hkv : kelly_volume_of today balance pattern trade_history ≤ 0 := by
    simp only [kelly_volume_of, POINT_VALUE]
    norm_num
    rcases hk with hk | hk
    · have hf : 0 ≤ min (kelly_pct_of today pattern trade_history * (25/100)) (5/10) :=
        le_min (by nlinarith) (by norm_num)
      have hm : balance * min (kelly_pct_of today pattern trade_history * (25/100)) (5/10) ≤ 0 :=
        mul_nonpos_iff.mpr (Or.inr ⟨hb, hf⟩)
      linarith
    · rw [hk]
      norm_num
  simp only [calculate_position_size]
  have hmax : max MIN_VOLUME (kelly_volume_of today balance pattern trade_history)
      = MIN_VOLUME :=
    max_eq_left (hkv.trans (by norm_num [MIN_VOLUME]))
  rw [hmax]
  have hmin : min MIN_VOLUME MAX_VOLUME = MIN_VOLUME :=
    min_eq_left (by norm_num [MIN_VOLUME, MAX_VOLUME])
  rw [hmin]
  norm_num [MIN_VOLUME, VOL_STEP, pyRound]

/-- Witness for the amended C4: negative balance with a nonnegative
Kelly percentage yields the floor volume. -/
theorem nonpositive_balance_floor_witness :
    (-5 : ℚ) ≤ 0 ∧
    calculate_position_size 0 (-5) ⟨0, 0, 0, 10, 100, 0, 0, 0, 0⟩ [] = MIN_VOLUME :=
  ⟨by norm_num,
    nonpositive_balance_floor 0 (-5) ⟨0, 0, 0, 10, 100, 0, 0, 0, 0⟩ []
      (by norm_num)
      (Or.inl (by norm_num [kelly_pct_of, avg_win_of, win_rate_of,
        current_session_trades_of]))⟩

/-- A pattern worth 10 points, used by the counterexample to C4 as
stated. -/
def cex4_pattern : Pattern := ⟨0, 0, 0, 10, 100, 0, 0, 0, 0⟩

/-- A session history of five losing trades (every `points_gained` is
zero), used by the counterexample to C4 as stated. -/
def cex4_trades : List Trade := List.replicate 5 ⟨0, 0, 0, 0, 0, 0, 0, 0⟩

/-- Counterexample to C4 as stated: at balance −40000, with five losing
session trades (realized win rate 0) and a 10-point pattern, the Kelly
percentage is −1, the fractional Kelly −1/4, and the negative balance
multiplied by it yields raw volume 100, clamped to `MAX_VOLUME` = 50 —
not `MIN_VOLUME`. -/
theorem nonpositive_balance_counterexample :
    (-40000 : ℚ) ≤ 0 ∧
    calculate_position_size 0 (-40000) cex4_pattern cex4_trades = 50 ∧
    calculate_position_size 0 (-40000) cex4_pattern cex4_trades ≠ MIN_VOLUME := by
  have hval : calculate_position_size 0 (-40000) cex4_pattern cex4_trades = 50 := by
    norm_num [calculate_position_size, kelly_volume_of, kelly_pct_of,
      avg_win_of, win_rate_of, current_session_trades_of, cex4_pattern,
      cex4_trades, dateOf, POINT_VALUE, MIN_VOLUME, MAX_VOLUME, VOL_STEP,
      pyRound, List.replicate, min_def, max_def]
  refine ⟨by norm_num, hval, ?_⟩
  rw [hval, MIN_VOLUME]
  norm_num

/-! ## C3: the `pre_high` window -/

/-- The maximum high over exactly the `LOOKBACK_WINDOW` bars
immediately preceding the pivot bar — the formula claimed by the
specification (`preHigh = max(high[c-W .. c-1])`), stated as a second
definition for comparison against the source's `detect_v_pattern`. -/
def pre_high_window (buf : List Bar) : ℚ :=
  maxHigh ((buf.take (buf.length - 2)).drop (buf.length - 2 - LOOKBACK_WINDOW))

/-- An 8-bar buffer whose first bar carries a high of 1000, outside any
5-bar window before the pivot (the seventh bar, low 100). -/
def cbuf3 : List Bar :=
  [⟨0, 0, 1000, 500, 0⟩, ⟨1, 0, 110, 105, 0⟩, ⟨2, 0, 110, 105, 0⟩,
   ⟨3, 0, 110, 105, 0⟩, ⟨4, 0, 110, 105, 0⟩, ⟨5, 0, 110, 105, 0⟩,
   ⟨6, 0, 101, 100, 0⟩, ⟨7, 0, 103, 102, 0⟩]

/-- Counterexample to C3 as stated: on `cbuf3` the source's
`detect_v_pattern` emits a pattern whose `decline_pct` is 90, computed
from the high 1000 of the first buffer bar, while the 5-bar window
before the pivot has maximum high 110, from which the claimed formula
gives `(110-100)/110*100 ≠ 90`. -/
theorem window_decline_counterexample :
    detect_v_pattern cbuf3 = some ⟨6, 201/2, 205/2, 2, 20, 90, 3, 3, 1⟩ ∧
    pre_high_window cbuf3 = 110 ∧
    (90 : ℚ) ≠ (pre_high_window cbuf3 - (nthLast cbuf3 2).low) /
      pre_high_window cbuf3 * 100 := by
  refine ⟨?_, ?_, ?_⟩ <;>
    norm_num [detect_v_pattern, cbuf3, nthLast, maxHigh, pre_high_window,
      LOOKBACK_WINDOW, MIN_DECLINE_PCT, MIN_RECOVERY_PCT,
      RECOVERY_PCT_THRESHOLD, VELOCITY_THRESHOLD, RANGE_THRESHOLD, SPREAD,
      POINT_VALUE, List.getD_cons_zero, List.getD_cons_succ, List.getD,
      min_def, max_def]

/-- C3 (amended): every pattern emitted by `detect_v_pattern` carries a
`decline_pct` computed from the maximum high over ALL bars preceding
the pivot bar (`price_buffer[:-2]`, up to the buffer capacity), not
from the `LOOKBACK_WINDOW`-bar window the specification names. -/
theorem decline_from_full_prefix (buf : List Bar) (p : Pattern)
    (h : detect_v_pattern buf = some p) :
    p.decline_pct =
      (maxHigh (buf.take (buf.length - 2)) - (nthLast buf 2).low) /
        maxHigh (buf.take (buf.length - 2)) * 100 := by
  unfold detect_v_pattern at h
  dsimp only at h
  split_ifs at h with h1 h2 h3 h4
  all_goals simp only [Option.some.injEq] at h
  subst h
  rfl

/-- Witness for the amended C3, applying it on `cbuf3`. -/
theorem decline_from_full_prefix_witness :
    Pattern.decline_pct ⟨6, 201/2, 205/2, 2, 20, 90, 3, 3, 1⟩ =
      (maxHigh (cbuf3.take (cbuf3.length - 2)) - (nthLast cbuf3 2).low) /
        maxHigh (cbuf3.take (cbuf3.length - 2)) * 100 :=
  decline_from_full_prefix cbuf3 ⟨6, 201/2, 205/2, 2, 20, 90, 3, 3, 1⟩
    (by norm_num [detect_v_pattern, cbuf3, nthLast, maxHigh,
      LOOKBACK_WINDOW, MIN_DECLINE_PCT, MIN_RECOVERY_PCT,
      RECOVERY_PCT_THRESHOLD, VELOCITY_THRESHOLD, RANGE_THRESHOLD, SPREAD,
      POINT_VALUE, List.getD_cons_zero, List.getD_cons_succ, List.getD,
      min_def, max_def])

/-! ## C8: spread rejection -/

/-- C8: every pattern returned by `detect_v_pattern` has
`points_gained > 0`; in particular, whenever
`high[-1] - low[-2] < SPREAD` no pattern is emitted.  (In this source
the guarantee comes from the velocity filter: a pattern needs
`high[-1] - low[-2] ≥ VELOCITY_THRESHOLD = 2.1 > SPREAD = 1`.) -/
theorem spread_rejection :
    (∀ (buf : List Bar) (p : Pattern),
      detect_v_pattern buf = some p → 0 < p.points_gained) ∧
    (∀ buf : List Bar,
      (nthLast buf 1).high - (nthLast buf 2).low < SPREAD →
      detect_v_pattern buf = none) := by
  constructor
  · intro buf p h
    unfold detect_v_pattern at h
    dsimp only at h
    split_ifs at h with h1 h2 h3 h4
    simp only [Option.some.injEq] at h
    subst h
    have hv := h4.2.1
    rw [VELOCITY_THRESHOLD] at hv
    simp only [SPREAD]
    linarith
  · intro buf hlt
    rw [SPREAD] at hlt
    unfold detect_v_pattern
    dsimp only
    split_ifs with h1 h2 h3 h4
    · rfl
    · exfalso
      have hv := h4.2.1
      rw [VELOCITY_THRESHOLD] at hv
      linarith
    · rfl
    · rfl
    · rfl

/-- A 6-bar buffer on which `detect_v_pattern` fires. -/
def cbuf8 : List Bar :=
  [⟨0, 0, 110, 105, 0⟩, ⟨1, 0, 110, 105, 0⟩, ⟨2, 0, 110, 105, 0⟩,
   ⟨3, 0, 110, 105, 0⟩, ⟨4, 0, 101, 100, 0⟩, ⟨5, 0, 103, 102, 0⟩]

/-- A 6-bar buffer whose confirmation high sits less than one spread
above the pivot low, so decline/recovery thresholds are met but the
pattern must be rejected. -/
def cbuf8b : List Bar :=
  [⟨0, 0, 110, 105, 0⟩, ⟨1, 0, 110, 105, 0⟩, ⟨2, 0, 110, 105, 0⟩,
   ⟨3, 0, 110, 105, 0⟩, ⟨4, 0, 101, 100, 0⟩, ⟨5, 0, 201/2, 501/5, 0⟩]

/-- Witness for C8: a concrete emitted pattern has positive
`points_gained`, and a concrete sub-spread buffer yields no pattern. -/
theorem spread_rejection_witness :
    0 < Pattern.points_gained ⟨4, 201/2, 205/2, 2, 20, 100/11, 3, 3, 1⟩ ∧
    detect_v_pattern cbuf8b = none :=
  ⟨spread_rejection.1 cbuf8 ⟨4, 201/2, 205/2, 2, 20, 100/11, 3, 3, 1⟩
      (by norm_num [detect_v_pattern, cbuf8, nthLast, maxHigh,
        LOOKBACK_WINDOW, MIN_DECLINE_PCT, MIN_RECOVERY_PCT,
        RECOVERY_PCT_THRESHOLD, VELOCITY_THRESHOLD, RANGE_THRESHOLD, SPREAD,
        POINT_VALUE, List.getD_cons_zero, List.getD_cons_succ, List.getD,
        min_def, max_def]),
   spread_rejection.2 cbuf8b
      (by norm_num [cbuf8b, nthLast, SPREAD,
        List.getD_cons_zero, List.getD_cons_succ, List.getD])⟩

/-! ## C9: buffer capacity and order -/

/-- One `appendBar` keeps the buffer within capacity. -/
theorem appendBar_length (buf : List Bar) (b : Bar)
    (h : buf.length ≤ BUFFER_SIZE) :
    (appendBar buf b).length ≤ BUFFER_SIZE := by
  unfold appendBar
  dsimp only
  split_ifs with h1 <;> simp_all [List.length_append]

/-- One `appendBar` is a drop-after-append. -/
theorem appendBar_eq_drop (buf : List Bar) (b : Bar)
    (h : buf.length ≤ BUFFER_SIZE) :
    appendBar buf b = (buf ++ [b]).drop (buf.length + 1 - BUFFER_SIZE) := by
  unfold appendBar
  dsimp only
  simp only [BUFFER_SIZE] at h ⊢
  split_ifs with h1
  · simp only [List.length_append, List.length_cons, List.length_nil] at h1
    have hd : buf.length + 1 - 20 = 1 := by omega
    rw [hd]
  · simp only [List.length_append, List.length_cons, List.length_nil] at h1
    have hd : buf.length + 1 - 20 = 0 := by omega
    rw [hd, List.drop_zero]

/-- Folding `appendBar` over a batch keeps exactly the trailing
`BUFFER_SIZE` bars of the concatenation. -/
theorem foldl_appendBar (news : List Bar) :
    ∀ init : List Bar, init.length ≤ BUFFER_SIZE →
      List.foldl appendBar init news =
        (init ++ news).drop (init.length + news.length - BUFFER_SIZE) := by
  induction news with
  | nil =>
    intro init h
    simp only [BUFFER_SIZE] at h
    simp only [List.foldl_nil, List.append_nil, List.length_nil, BUFFER_SIZE]
    have hd : init.length + 0 - 20 = 0 := by omega
    rw [hd, List.drop_zero]
  | cons b rest ih =>
    intro init h
    rw [List.foldl_cons, ih (appendBar init b) (appendBar_length init b h),
      appendBar_eq_drop init b h]
    have hle : init.length + 1 - BUFFER_SIZE ≤ (init ++ [b]).length := by
      simp only [List.length_append, List.length_cons, List.length_nil]
      omega
    rw [List.length_drop, ← List.drop_append_of_le_length hle,
      List.drop_drop]
    have harr : init ++ [b] ++ rest = init ++ b :: rest := by
      rw [List.append_assoc, List.singleton_append]
    rw [harr]
    congr 1
    simp only [BUFFER_SIZE, List.length_append, List.length_cons,
      List.length_nil] at h ⊢
    omega

/-- C9: starting from a buffer within the capacity `BUFFER_SIZE = 20`
whose timestamps, together with the appended bars', are strictly
increasing, `BUFFER_SIZE + k` appends leave exactly the most recent
`BUFFER_SIZE` bars, in ascending timestamp order. -/
theorem buffer_capacity (init news : List Bar) (k : ℕ)
    (hcap : init.length ≤ BUFFER_SIZE)
    (hsorted : (init ++ news).Pairwise (fun a b => a.time < b.time))
    (hlen : news.length = BUFFER_SIZE + k) :
    List.foldl appendBar init news = news.drop k ∧
    (List.foldl appendBar init news).Pairwise (fun a b => a.time < b.time) := by
  have hfold := foldl_appendBar news init hcap
  have hidx : init.length + news.length - BUFFER_SIZE = k + init.length := by
    omega
  rw [hidx] at hfold
  have hdrop : (init ++ news).drop (k + init.length) = news.drop k := by
    rw [add_comm, ← List.drop_drop, List.drop_left]
  rw [hfold, hdrop]
  refine ⟨rfl, ?_⟩
  exact List.Pairwise.sublist (List.drop_sublist k news)
    (List.pairwise_append.mp hsorted).2.1

/-- A concrete within-capacity starting buffer. -/
def w9_init : List Bar := [⟨0, 0, 0, 0, 0⟩]

/-- Twenty concrete bars with strictly increasing timestamps. -/
def w9_news : List Bar :=
  [⟨1, 0, 0, 0, 0⟩, ⟨2, 0, 0, 0, 0⟩, ⟨3, 0, 0, 0, 0⟩, ⟨4, 0, 0, 0, 0⟩,
   ⟨5, 0, 0, 0, 0⟩, ⟨6, 0, 0, 0, 0⟩, ⟨7, 0, 0, 0, 0⟩, ⟨8, 0, 0, 0, 0⟩,
   ⟨9, 0, 0, 0, 0⟩, ⟨10, 0, 0, 0, 0⟩, ⟨11, 0, 0, 0, 0⟩, ⟨12, 0, 0, 0, 0⟩,
   ⟨13, 0, 0, 0, 0⟩, ⟨14, 0, 0, 0, 0⟩, ⟨15, 0, 0, 0, 0⟩, ⟨16, 0, 0, 0, 0⟩,
   ⟨17, 0, 0, 0, 0⟩, ⟨18, 0, 0, 0, 0⟩, ⟨19, 0, 0, 0, 0⟩, ⟨20, 0, 0, 0, 0⟩]

/-- Witness for C9 at a concrete run of `BUFFER_SIZE` appends. -/
theorem buffer_capacity_witness :
    List.foldl appendBar w9_init w9_news = w9_news.drop 0 ∧
    (List.foldl appendBar w9_init w9_news).Pairwise
      (fun a b => a.time < b.time) :=
  buffer_capacity w9_init w9_news 0 (by decide)
    (by decide) (by decide)

end QTAI
